import Mathlib

/-!
Verification development for the nft-minter-tolk repository.

The TypeScript service, wrappers and tests are embedded shallowly:

* TON cells are modelled symbolically as the exact sequence of builder
  store operations; the cell hash is the identity on this symbolic
  representation, i.e. an ideal collision-free hash (two cells collide
  exactly when the stored field sequences coincide).
* Ed25519 is modelled as an ideal signature scheme in the symbolic
  (Dolev-Yao) style: a detached signature is the pair of the signing key
  identifier and the signed message, and verification checks both
  components.  Key material is abbreviated to a single natural-number
  identifier standing for the keypair; the hex/bigint re-encoding layers
  of the TypeScript code are elided where they are bijective.
* Addresses that the TypeScript code stores inside cells are opaque
  account identifiers (Nat); a derived contract address is the pair of
  the workchain and the state init, so that contract-address derivation
  is an ideal content hash (injective by construction).
* The Tolk contracts themselves are not part of the analysed sources;
  their transition functions are modelled from the specification text and
  constrained by the repository test suite (exit codes, guard order,
  bounce behaviour).  Such definitions carry a doc comment starting with
  "Modelled from the spec:".
-/

/-- Symbolic TON cell: the sequence of store operations performed by the
builder that produced the cell.  Stored addresses are opaque account
identifiers. -/
inductive Cell where
  | empty : Cell
  | bit (b : Bool) (rest : Cell) : Cell
  | uintN (v w : Nat) (rest : Cell) : Cell
  | coins (v : Nat) (rest : Cell) : Cell
  | addr (a : Nat) (rest : Cell) : Cell
  | str (s : String) (rest : Cell) : Cell
  | ref (c : Cell) (rest : Cell) : Cell
deriving DecidableEq

/-- A builder is a difference list of store operations, so builder chains
read in the same order as the TypeScript beginCell()...endCell() chains. -/
def Builder : Type := Cell → Cell

/-- Mirrors beginCell() of the ton library. -/
def beginCell : Builder := fun rest => rest

namespace Builder

/-- Mirrors Builder.storeBit. -/
def storeBit (b : Builder) (x : Bool) : Builder := fun rest => b (Cell.bit x rest)

/-- Mirrors Builder.storeUint (value, width). -/
def storeUint (b : Builder) (v w : Nat) : Builder := fun rest => b (Cell.uintN v w rest)

/-- Mirrors Builder.storeCoins. -/
def storeCoins (b : Builder) (v : Nat) : Builder := fun rest => b (Cell.coins v rest)

/-- Mirrors Builder.storeAddress; the address is an opaque account id. -/
def storeAddress (b : Builder) (a : Nat) : Builder := fun rest => b (Cell.addr a rest)

/-- Mirrors Builder.storeStringTail. -/
def storeStringTail (b : Builder) (s : String) : Builder := fun rest => b (Cell.str s rest)

/-- Mirrors Builder.storeRef. -/
def storeRef (b : Builder) (c : Cell) : Builder := fun rest => b (Cell.ref c rest)

/-- Mirrors Builder.storeMaybeRef: a presence bit followed by the ref when
the argument is non-null. -/
def storeMaybeRef (b : Builder) (c : Option Cell) : Builder :=
  match c with
  | none => b.storeBit false
  | some cc => (b.storeBit true).storeRef cc

/-- Mirrors Builder.endCell. -/
def endCell (b : Builder) : Cell := b Cell.empty

end Builder

/-- Ideal collision-free hash: in the symbolic model the digest of a cell
is the cell itself, so digest equality coincides with cell equality. -/
def Cell.hash (c : Cell) : Cell := c

/-- Symbolic detached Ed25519 signature: the pair of the signer keypair id
and the signed message digest. -/
structure Ed25519Sig where
  signer : Nat
  message : Cell
deriving DecidableEq

/-- Symbolic nacl.sign.detached: the signature records the keypair id and
the message. -/
def naclSignDetached (message : Cell) (secretKey : Nat) : Ed25519Sig :=
  { signer := secretKey, message := message }

/-- Symbolic nacl.sign.detached.verify: checks that the signature was made
by the keypair with the given public identifier over exactly this
message. -/
def naclVerifyDetached (message : Cell) (sig : Ed25519Sig) (publicKey : Nat) : Bool :=
  if sig.signer = publicKey ∧ sig.message = message then true else false

/-! Service signing module (src service signing, unnamed part_002 first document). -/

/-- Embeds createNftContent of the service: off-chain content prefix 0x01
followed by the metadata url. -/
def createNftContent (metadataUrl : String) : Cell :=
  ((beginCell.storeUint 0x01 8).storeStringTail metadataUrl).endCell

/-- Embeds hashContentWithPrice of the service signing module: the digest
of a cell holding a ref to the content and the price.  Note that no owner
account enters this digest. -/
def hashContentWithPrice (content : Cell) (price : Nat) : Cell :=
  (((beginCell.storeRef content).storeCoins price).endCell).hash

/-- Embeds the SignedNFTData record returned by signContentWithPrice (the
hex re-encoding field is elided). -/
structure SignedNFTData where
  content : Cell
  price : Nat
  dataHash : Cell
  signature : Ed25519Sig
deriving DecidableEq

/-- Embeds signContentWithPrice: sign hashContentWithPrice with the
service secret key. -/
def signContentWithPrice (content : Cell) (price : Nat) (secretKey : Nat) : SignedNFTData :=
  let dataHash := hashContentWithPrice content price
  let signatureBytes := naclSignDetached dataHash secretKey
  { content := content, price := price, dataHash := dataHash, signature := signatureBytes }

/-- Embeds verifySignature of the service signing module: recomputes
hashContentWithPrice and verifies the detached signature.  The function
takes no owner account at all. -/
def verifySignature (content : Cell) (price : Nat) (signature : Ed25519Sig)
    (publicKey : Nat) : Bool :=
  let dataHash := hashContentWithPrice content price
  naclVerifyDetached dataHash signature publicKey

/-- Embeds generateSignedNftForUser: build the content cell from the
metadata url and sign content plus price. -/
def generateSignedNftForUser (secretKey : Nat) (metadataUrl : String) (price : Nat) :
    SignedNFTData :=
  let content := createNftContent metadataUrl
  signContentWithPrice content price secretKey

/-! Client wrapper (src wrappers MinterItem.ts). -/

/-- Embeds hashMintData of the wrapper: digest over a ref to the content,
the price, and the owner address. -/
def hashMintData (content : Cell) (price : Nat) (ownerAddress : Nat) : Cell :=
  ((((beginCell.storeRef content).storeCoins price).storeAddress ownerAddress).endCell).hash

/-- Modelled from the spec: on-chain signature verification of the
PendingIssuance (MinterItem) contract.  The Tolk contract source is not
among the analysed files; per the wrapper comment (hash must match the
contract hashMintData) and the integration tests, the contract checks the
detached signature against the digest of (content, price, ownerAddress)
under the stored service public key. -/
def contractVerifyMintSignature (publicKey : Nat) (content : Cell) (price : Nat)
    (ownerAddress : Nat) (sig : Ed25519Sig) : Bool :=
  naclVerifyDetached (hashMintData content price ownerAddress) sig publicKey

/-! Address derivation (src service contracts.ts and wrappers). -/

/-- State init of a contract: the code and data cells. -/
structure StateInit where
  code : Cell
  data : Cell
deriving DecidableEq

/-- Derived contract address.  Content addressing is modelled ideally: the
address is the pair of the workchain and the state init, so the derivation
is injective by construction. -/
structure ContractAddr where
  workchain : Nat
  init : StateInit
deriving DecidableEq

/-- Mirrors contractAddress(workchain, init) of the ton library under the
ideal content-hash model. -/
def contractAddress (workchain : Nat) (init : StateInit) : ContractAddr :=
  { workchain := workchain, init := init }

/-- Embeds packMinterItemData of the service: isMinted false, price,
minter address, owner address, 256-bit public key, maybe-ref content. -/
def packMinterItemData (ownerAddress minterAddress : Nat) (publicKey : Nat)
    (price : Nat) (content : Cell) : Cell :=
  (((((beginCell.storeBit false).storeCoins price).storeAddress minterAddress
      ).storeAddress ownerAddress).storeUint publicKey 256).storeMaybeRef (some content)
    |>.endCell

/-- Embeds calculateMinterItemStateInit of the service. -/
def calculateMinterItemStateInit (ownerAddress minterAddress : Nat) (publicKey : Nat)
    (price : Nat) (content minterItemCode : Cell) : StateInit :=
  let data := packMinterItemData ownerAddress minterAddress publicKey price content
  { code := minterItemCode, data := data }

/-- Embeds calculateMinterItemAddress of the service (workchain defaults
to 0 at every call site). -/
def calculateMinterItemAddress (ownerAddress minterAddress : Nat) (publicKey : Nat)
    (price : Nat) (content minterItemCode : Cell) (workchain : Nat) : ContractAddr :=
  let init := calculateMinterItemStateInit ownerAddress minterAddress publicKey price
    content minterItemCode
  contractAddress workchain init

/-- Embeds the MinterItemConfig record of the wrapper.  The same record
also serves as the persistent storage of the PendingIssuance contract,
since the wrapper packs it unchanged as the contract data. -/
structure MinterItemConfig where
  isMinted : Bool
  price : Nat
  minterAddress : Nat
  ownerAddress : Nat
  servicePublicKey : Nat
  contentNftItem : Option Cell
deriving DecidableEq

/-- Embeds minterItemConfigToCell of the wrapper. -/
def minterItemConfigToCell (config : MinterItemConfig) : Cell :=
  (((((beginCell.storeBit config.isMinted).storeCoins config.price
      ).storeAddress config.minterAddress).storeAddress config.ownerAddress
      ).storeUint config.servicePublicKey 256).storeMaybeRef config.contentNftItem
    |>.endCell

/-- Wrapper contract handle holding the derived address and the init. -/
structure MinterItemContract where
  address : ContractAddr
  init : StateInit
deriving DecidableEq

namespace MinterItem

/-- Embeds MinterItem.createFromConfig of the wrapper (workchain defaults
to 0 at every call site). -/
def createFromConfig (config : MinterItemConfig) (code : Cell) (workchain : Nat) :
    MinterItemContract :=
  let data := minterItemConfigToCell config
  let init : StateInit := { code := code, data := data }
  { address := contractAddress workchain init, init := init }

end MinterItem

/-! Service configuration (src service config.ts, unnamed part_004 first document). -/

/-- Embeds the ServiceConfig interface of the src service.  Note that the
interface declares no startTime field. -/
structure ServiceConfig where
  network : String
  minterAddress : Option Nat
  collectionAddress : Option Nat
  defaultPrice : Nat
  port : Nat
deriving DecidableEq

/-- Decimal-digit numerals, the domain on which the price-string parsing
is modelled (parseFloat, toNano and BigInt agree on it without rounding). -/
def isDigitString (s : String) : Bool :=
  decide (0 < s.data.length) && s.data.all (fun ch => ch.isDigit)

/-- Value of a decimal-digit numeral, folding over its characters in
order. -/
def parseDecimalNat (s : String) : Nat :=
  s.data.foldl (fun acc ch => acc * 10 + (ch.toNat - 48)) 0

/-- Embeds parsePrice of the service config on decimal-digit numerals: an
undefined or empty (JS-falsy) string yields the default; a numeric value
below 1000 is read as whole TON and scaled by toNano; otherwise the string
is read directly as nanoTON via BigInt. -/
def parsePrice (priceStr : Option String) (defaultPrice : Nat) : Nat :=
  match priceStr with
  | none => defaultPrice
  | some s =>
    if s = "" then defaultPrice
    else
      let num := parseDecimalNat s
      if num < 1000 then parseDecimalNat s * 1000000000
      else parseDecimalNat s

/-! Service key encoding (src service keys.ts). -/

/-- Embeds publicKeyToBigInt: the hex string of the 32-byte buffer read as
a bigint, i.e. the big-endian base-256 value of the bytes. -/
def publicKeyToBigInt (publicKey : List Nat) : Nat :=
  publicKey.foldl (fun acc b => acc * 256 + b) 0

/-- Big-endian base-256 digits of a number padded to a fixed width; for
values below 2 to the power (8 * width) this is exactly toString(16)
padded with padStart to 2 * width hex digits and decoded pairwise into
bytes. -/
def natToBEBytes : Nat → Nat → List Nat
  | 0, _ => []
  | w + 1, n => natToBEBytes w (n / 256) ++ [n % 256]

/-- Embeds bigIntToPublicKey: toString(16), padStart(64, zero), decode the
64 hex digits as 32 big-endian bytes. -/
def bigIntToPublicKey (pubKeyBigInt : Nat) : List Nat :=
  natToBEBytes 32 pubKeyBigInt

/-! HTTP calculate-address route (src service api.ts, unnamed part_002
second document). -/

/-- Untyped runtime value for modelling a JavaScript call whose arguments
do not match the callee parameter types. -/
inductive JsVal where
  | num (n : Nat)
  | cell (c : Cell)
  | address (a : Nat)
  | undef
deriving DecidableEq

/-- JavaScript-semantics positional call of calculateMinterItemAddress:
the seven parameters (ownerAddress, minterAddress, publicKey, price,
content, minterItemCode, workchain) are bound positionally; a missing or
undefined workchain takes the default 0; any value of the wrong shape
makes the builder or contractAddress call throw, which is modelled as
none. -/
def calculateMinterItemAddressJsCall (args : List JsVal) : Option ContractAddr :=
  match args.getD 0 JsVal.undef, args.getD 1 JsVal.undef, args.getD 2 JsVal.undef,
      args.getD 3 JsVal.undef, args.getD 4 JsVal.undef, args.getD 5 JsVal.undef,
      args.getD 6 (JsVal.num 0) with
  | JsVal.address o, JsVal.address m, JsVal.num pk, JsVal.num p, JsVal.cell c,
      JsVal.cell code, JsVal.num wc =>
    some (calculateMinterItemAddress o m pk p c code wc)
  | _, _, _, _, _, _, _ => none

/-- Reading the startTime property of the src ServiceConfig: the config
interface and the default config declare no such field, so the property
access evaluates to undefined. -/
def serviceConfigStartTime (_ : ServiceConfig) : JsVal := JsVal.undef

/-- Embeds the calculate-address route of the service api: parse the owner,
require a configured minter address, derive the price via parsePrice and
the content via createNftContent, then call calculateMinterItemAddress
with the positional arguments (owner, minter, publicKey, config.startTime,
price, content, minterItemCode) exactly as written at the call site. -/
def routeCalculateAddress (keysPublicKey : Nat) (config : ServiceConfig)
    (minterItemCode : Cell) (ownerAddress : Nat) (metadataUrl : String)
    (priceStr : Option String) : Option ContractAddr :=
  match config.minterAddress with
  | none => none
  | some minter =>
    let publicKey := keysPublicKey
    let price := parsePrice priceStr config.defaultPrice
    let content := createNftContent metadataUrl
    calculateMinterItemAddressJsCall
      [JsVal.address ownerAddress, JsVal.address minter, JsVal.num publicKey,
       serviceConfigStartTime config, JsVal.num price, JsVal.cell content,
       JsVal.cell minterItemCode]

/-! On-chain protocol constants (src tests and wrappers, unnamed part_004
second document). -/

/-- Gas fee constant MIN_TONS_FOR_STORAGE of the wrapper utils, 0.02 TON
in nanoTON. -/
def MIN_TONS_FOR_STORAGE : Nat := 20000000

/-- Gas fee constant NFT_DEPLOY_AMOUNT of the wrapper utils, 0.05 TON in
nanoTON. -/
def NFT_DEPLOY_AMOUNT : Nat := 50000000

/-- Op code of the mint message accepted by the MinterItem contract (from
the wrapper message builders). -/
def opMintItem : Nat := 0x90231E2C

/-- Op code of the internal mint-item request forwarded to the Minter
(from the integration tests). -/
def OP_INTERNAL_MINT_ITEM : Nat := 0x0505DC31

/-- Exit code 201, ERROR_MINT_DISABLED (from the integration tests). -/
def ERROR_MINT_DISABLED : Nat := 201

/-- Exit code 202, ERROR_NOT_OWNER_TRYING_TO_MINT (from the tests). -/
def ERROR_NOT_OWNER_TRYING_TO_MINT : Nat := 202

/-- Exit code 203, ERROR_NOT_ENOUGH_FUNDS_TO_MINT (from the tests). -/
def ERROR_NOT_ENOUGH_FUNDS_TO_MINT : Nat := 203

/-- Exit code 204, ERROR_MINTED_ALREADY (from the tests). -/
def ERROR_MINTED_ALREADY : Nat := 204

/-- Exit code 205, ERROR_SIGNATURE_INVALID (from the tests). -/
def ERROR_SIGNATURE_INVALID : Nat := 205

/-- Exit code 206, ERROR_MINT_ITEM_ADDRESS_MISMATCH (from the tests). -/
def ERROR_MINT_ITEM_ADDRESS_MISMATCH : Nat := 206

/-- Exit code 207, ERROR_NOT_ADMIN (from the tests). -/
def ERROR_NOT_ADMIN : Nat := 207

/-- Exit code 208, ERROR_NOT_ENOUGH_BALANCE (from the tests). -/
def ERROR_NOT_ENOUGH_BALANCE : Nat := 208

/-- Modelled from the spec: numeric code for the ContentMissing
internal-consistency error; the spec lists the error but no file under
src pins its number, so the model uses the next free code. -/
def ERROR_CONTENT_MISSING : Nat := 209

/-- Network-level address of a message sender or destination: either an
externally controlled account (wallet, admin, collection treasury) or a
derived contract address. -/
inductive NetAddr where
  | acc (id : Nat)
  | contractAcc (a : ContractAddr)
deriving DecidableEq

/-- Outgoing message produced by a contract transition. -/
inductive OutMsg where
  | internalMintRequest (dest : Nat) (value : Nat) (price : Nat)
      (ownerAddress : Nat) (content : Cell)
  | refund (dest : Nat) (value : Nat)
  | issueCommand (dest : Nat) (value : Nat) (ownerAddress : Nat) (content : Cell)
  | claimPayout (dest : Nat) (value : Nat)
  | changeCollectionAdmin (dest : Nat) (newOwner : Nat)
deriving DecidableEq

/-- Result of processing one inbound message: either the committed new
storage together with the outbox, or a rejection with an exit code.  A
rejection aborts the transaction, so by construction it changes no state
and sends no message. -/
inductive StepResult (σ : Type) where
  | ok (st : σ) (outbox : List OutMsg)
  | err (exitCode : Nat)
deriving DecidableEq

/-- Modelled from the spec: the mint transition of the PendingIssuance
(MinterItem) contract, whose Tolk source is not among the analysed files.
Guards in spec order, first failure wins: minted-already (204), sender is
not the owner (202), attached value below the price (203), signature
invalid against the digest of content, price and owner (205).  On success
the minted flag is set and the internal mint request is forwarded to the
minter carrying the remaining value, received value minus the gas consumed
minus the reserve retained (spec fee accounting); the content is kept in
storage, which the retry-after-bounce integration test forces for this
variant.  The gasConsumed and reserveDelta amounts are symbolic
parameters of the fee model. -/
def handleMintItem (st : MinterItemConfig) (sender : NetAddr) (msgValue : Nat)
    (signature : Ed25519Sig) (gasConsumed reserveDelta : Nat) :
    StepResult MinterItemConfig :=
  if st.isMinted then StepResult.err ERROR_MINTED_ALREADY
  else if sender ≠ NetAddr.acc st.ownerAddress then
    StepResult.err ERROR_NOT_OWNER_TRYING_TO_MINT
  else if msgValue < st.price then StepResult.err ERROR_NOT_ENOUGH_FUNDS_TO_MINT
  else
    match st.contentNftItem with
    | none => StepResult.err ERROR_CONTENT_MISSING
    | some content =>
      if contractVerifyMintSignature st.servicePublicKey content st.price
          st.ownerAddress signature then
        StepResult.ok { st with isMinted := true }
          [OutMsg.internalMintRequest st.minterAddress
            (msgValue - gasConsumed - reserveDelta) st.price st.ownerAddress content]
      else StepResult.err ERROR_SIGNATURE_INVALID

/-- Modelled from the spec: bounce handling of the PendingIssuance
contract.  When the forwarded internal mint request bounces, the contract
refunds the returned value (minus the gas of the bounce transaction) to
the owner; the retry-after-bounce integration test shows that this
variant also rolls the minted flag back to false so that a later mint
attempt can succeed. -/
def handleBounce (st : MinterItemConfig) (bouncedOp : Nat) (returnedValue : Nat)
    (gasConsumed : Nat) : StepResult MinterItemConfig :=
  if bouncedOp = OP_INTERNAL_MINT_ITEM then
    StepResult.ok { st with isMinted := false }
      [OutMsg.refund st.ownerAddress (returnedValue - gasConsumed)]
  else StepResult.ok st []

/-- Embeds the MinterConfig record of the wrapper (src wrappers Minter,
unnamed part_006); it is also the persistent storage of the Minter
contract, packed unchanged as the contract data. -/
structure MinterConfig where
  adminAddress : Nat
  collectionAddress : Nat
  servicePublicKey : Nat
  isMintEnabled : Bool
  minterItemCode : Cell
deriving DecidableEq

/-- Modelled from the spec: the internal mint-request transition of the
Minter contract.  It recomputes the expected MinterItem address from the
embedded price, owner and content together with its own address, stored
public key and item code template, and rejects a sender mismatch (206);
then it rejects when the minting policy is disabled (201); otherwise it
forwards the issue command to the collection with the remaining value,
received value minus gas consumed minus the reserve retained. -/
def handleInternalMintRequest (st : MinterConfig) (selfAddress : Nat)
    (sender : NetAddr) (msgValue : Nat) (price ownerAddress : Nat) (content : Cell)
    (gasConsumed reserveDelta : Nat) : StepResult MinterConfig :=
  let expected := calculateMinterItemAddress ownerAddress selfAddress
    st.servicePublicKey price content st.minterItemCode 0
  if sender ≠ NetAddr.contractAcc expected then
    StepResult.err ERROR_MINT_ITEM_ADDRESS_MISMATCH
  else if ! st.isMintEnabled then StepResult.err ERROR_MINT_DISABLED
  else
    StepResult.ok st
      [OutMsg.issueCommand st.collectionAddress (msgValue - gasConsumed - reserveDelta)
        ownerAddress content]

/-- Admin operation of the Minter contract (from the wrapper message
builders: AdminClaim, AdminToggleMint, AdminTransferCollectionOwnership). -/
inductive AdminOp where
  | claim (queryId : Nat)
  | toggleMint (queryId : Nat) (enableMint : Bool)
  | transferCollectionOwnership (queryId : Nat) (newOwner : Nat)
deriving DecidableEq

/-- Result of an admin operation: the committed storage, the resulting
contract balance and the outbox, or a rejection with an exit code (which
changes nothing and sends nothing). -/
inductive AdminResult where
  | ok (st : MinterConfig) (balance : Nat) (outbox : List OutMsg)
  | err (exitCode : Nat)
deriving DecidableEq

/-- Modelled from the spec: admin operations of the Minter contract.  The
sender must be the admin, otherwise 207.  Claim computes the excess of the
current balance (which includes the incoming message value, per the test
comment on getOriginalBalance) over MIN_TONS_FOR_STORAGE, rejects with 208
when the excess is not positive, and otherwise pays the excess to the
admin, retaining exactly the reserve.  ToggleMint sets the policy flag.
TransferCollectionOwnership forwards the admin-change command to the
collection. -/
def handleAdminOp (st : MinterConfig) (sender : NetAddr) (balance : Nat)
    (op : AdminOp) : AdminResult :=
  if sender ≠ NetAddr.acc st.adminAddress then AdminResult.err ERROR_NOT_ADMIN
  else
    match op with
    | AdminOp.claim _ =>
      if balance ≤ MIN_TONS_FOR_STORAGE then AdminResult.err ERROR_NOT_ENOUGH_BALANCE
      else
        AdminResult.ok st MIN_TONS_FOR_STORAGE
          [OutMsg.claimPayout st.adminAddress (balance - MIN_TONS_FOR_STORAGE)]
    | AdminOp.toggleMint _ enableMint =>
      AdminResult.ok { st with isMintEnabled := enableMint } balance []
    | AdminOp.transferCollectionOwnership _ newOwner =>
      AdminResult.ok st balance
        [OutMsg.changeCollectionAdmin st.collectionAddress newOwner]

/-! Sample concrete values used by closed theorems and witnesses. -/

/-- Sample NFT content cell, as built by the tests and the service. -/
def sampleContent : Cell := createNftContent "https://example.com/nft.json"

/-- Sample stand-in for the compiled MinterItem code cell. -/
def sampleItemCode : Cell := (beginCell.storeUint 7 8).endCell

/-- Sample fresh MinterItem storage: price 1 TON, minter account 9, owner
account 1, service keypair 5, content present. -/
def sampleItemState : MinterItemConfig :=
  { isMinted := false, price := 1000000000, minterAddress := 9, ownerAddress := 1,
    servicePublicKey := 5, contentNftItem := some sampleContent }

/-- Sample MinterItem storage after a successful mint transition. -/
def sampleItemStateMinted : MinterItemConfig :=
  { sampleItemState with isMinted := true }

/-- Sample valid mint signature: the service keypair 5 signing the digest
of (sampleContent, 1 TON, owner 1). -/
def sampleSig : Ed25519Sig :=
  naclSignDetached (hashMintData sampleContent 1000000000 1) 5

/-- Sample invalid mint signature: same keypair, but the digest was taken
for a different owner account. -/
def sampleWrongSig : Ed25519Sig :=
  naclSignDetached (hashMintData sampleContent 1000000000 2) 5

/-- Sample Minter storage: admin 3, collection 4, service keypair 5,
minting enabled. -/
def sampleMinterState : MinterConfig :=
  { adminAddress := 3, collectionAddress := 4, servicePublicKey := 5,
    isMintEnabled := true, minterItemCode := sampleItemCode }

/-- Sample src service configuration with the minter account configured. -/
def sampleServiceConfig : ServiceConfig :=
  { network := "mainnet", minterAddress := some 9, collectionAddress := some 4,
    defaultPrice := 1000000000, port := 3000 }

/-- Sample 32-byte public key with leading zero bytes. -/
def sampleKeyBytes : List Nat :=
  [0, 0, 222, 13, 1, 2, 3, 4, 5, 6, 7, 8, 9, 10, 11, 12, 13, 14, 15, 16,
   17, 18, 19, 20, 21, 22, 23, 24, 25, 26, 27, 255]

/-! Claim theorems. -/

/-- C1: the claim says the service-side hashing and verification
(hashContentWithPrice, verifySignature) compute a digest that includes the
owner account, so that a signature fails verification for a different
owner.  On the src code this is false: the service digest contains only
the content and the price, while the wrapper digest hashMintData (which
must match the contract, per the wrapper comment and the passing
integration tests) does include the owner.  At the concrete input this
theorem shows the client digest separates the two owners, the service
digest differs from the client digest, the service accepts its own
owner-free signature, and the contract-side verification rejects that
same service-produced signature. -/
theorem C1_service_digest_omits_owner :
    hashMintData sampleContent 1000000000 1 ≠ hashMintData sampleContent 1000000000 2
    ∧ hashContentWithPrice sampleContent 1000000000 ≠ hashMintData sampleContent 1000000000 1
    ∧ verifySignature sampleContent 1000000000
        (signContentWithPrice sampleContent 1000000000 5).signature 5 = true
    ∧ contractVerifyMintSignature 5 sampleContent 1000000000 1
        (signContentWithPrice sampleContent 1000000000 5).signature = false := by
  refine ⟨by decide, by decide, by decide, by decide⟩

/-- C2: the claim says the service function calculateMinterItemAddress,
the wrapper MinterItem.createFromConfig and the HTTP calculate-address
route all compute the same deterministic address.  The two TypeScript
functions do agree (second conjunct, for every tuple), but the route as
written in src passes config.startTime, a field absent from the src
ServiceConfig and hence undefined, as the positional price argument and
shifts every later argument by one, so its call fails instead of
producing the address (first conjunct, at a concrete request). -/
theorem C2_route_address_divergence :
    routeCalculateAddress 5 sampleServiceConfig sampleItemCode 1
        "https://example.com/nft.json" none = none
    ∧ (∀ o m pk p wc : Nat, ∀ c code : Cell,
        calculateMinterItemAddress o m pk p c code wc
          = (MinterItem.createFromConfig
              { isMinted := false, price := p, minterAddress := m, ownerAddress := o,
                servicePublicKey := pk, contentNftItem := some c } code wc).address) := by
  refine ⟨by decide, ?_⟩
  intro o m pk p wc c code
  rfl

/-- C3 counterexample: the claim says the minted flag is never reset and
every second mint attempt is rejected with AlreadyMinted.  On the
modelled contract, whose bounce behaviour is forced by the
retry-after-bounce integration test, a successful mint sets the flag, the
bounce of the forwarded request resets it to false, and a second mint
attempt with the same valid signature then succeeds again, refuting both
the never-reset and the at-most-one-success readings. -/
theorem C3_minted_flag_reset_by_bounce :
    handleMintItem sampleItemState (NetAddr.acc 1) 2000000000 sampleSig 1000000
        MIN_TONS_FOR_STORAGE
      = StepResult.ok sampleItemStateMinted
          [OutMsg.internalMintRequest 9 1979000000 1000000000 1 sampleContent]
    ∧ sampleItemStateMinted.isMinted = true
    ∧ handleBounce sampleItemStateMinted OP_INTERNAL_MINT_ITEM 1977000000 1000000
      = StepResult.ok sampleItemState [OutMsg.refund 1 1976000000]
    ∧ sampleItemState.isMinted = false
    ∧ handleMintItem sampleItemState (NetAddr.acc 1) 2000000000 sampleSig 1000000
        MIN_TONS_FOR_STORAGE
      = StepResult.ok sampleItemStateMinted
          [OutMsg.internalMintRequest 9 1979000000 1000000000 1 sampleContent] := by
  refine ⟨by decide, by decide, by decide, by decide, by decide⟩

/-- C3 as amended: within mint handling the flag is monotone, a mint
attempt on an already-minted instance always fails with exit code 204
(and, a rejection committing nothing, leaves the state unchanged), and a
successful mint transition starts from an unminted state and ends minted;
only the bounce handler resets the flag to permit retry. -/
theorem C3_mint_transition_monotone :
    (∀ st : MinterItemConfig, ∀ sender : NetAddr, ∀ v : Nat, ∀ sig : Ed25519Sig,
      ∀ g r : Nat, st.isMinted = true →
        handleMintItem st sender v sig g r = StepResult.err ERROR_MINTED_ALREADY)
    ∧ (∀ st : MinterItemConfig, ∀ sender : NetAddr, ∀ v : Nat, ∀ sig : Ed25519Sig,
      ∀ g r : Nat, ∀ st2 : MinterItemConfig, ∀ outbox : List OutMsg,
        handleMintItem st sender v sig g r = StepResult.ok st2 outbox →
        st.isMinted = false ∧ st2.isMinted = true) := by
  constructor
  · intro st sender v sig g r h
    simp [handleMintItem, h]
  · intro st sender v sig g r st2 outbox h
    unfold handleMintItem at h
    by_cases hm : st.isMinted
    · simp [hm] at h
    · refine ⟨by simpa using hm, ?_⟩
      simp only [hm, if_false, Bool.false_eq_true] at h
      split at h
      · exact absurd h (by simp)
      · split at h
        · exact absurd h (by simp)
        · split at h
          · exact absurd h (by simp)
          · split at h
            · injection h with h1 h2
              rw [← h1]
            · exact absurd h (by simp)

/-- C3 witness: the amended theorem applied at the sample instance. -/
theorem C3_mint_transition_monotone_witness :
    handleMintItem sampleItemStateMinted (NetAddr.acc 1) 2000000000 sampleSig 1000000
        MIN_TONS_FOR_STORAGE = StepResult.err ERROR_MINTED_ALREADY
    ∧ (sampleItemState.isMinted = false ∧ sampleItemStateMinted.isMinted = true) :=
  ⟨C3_mint_transition_monotone.1 sampleItemStateMinted (NetAddr.acc 1) 2000000000
      sampleSig 1000000 MIN_TONS_FOR_STORAGE (by decide),
   C3_mint_transition_monotone.2 sampleItemState (NetAddr.acc 1) 2000000000 sampleSig
      1000000 MIN_TONS_FOR_STORAGE sampleItemStateMinted
      [OutMsg.internalMintRequest 9 1979000000 1000000000 1 sampleContent] (by decide)⟩

/-- Sample Minter storage with the minting policy disabled. -/
def sampleMinterStateDisabled : MinterConfig :=
  { sampleMinterState with isMintEnabled := false }

/-- C4: with the minting policy disabled and the user attaching 2 TON, the
MinterItem deploys and processes successfully and forwards the internal
request, the Minter rejects it with MintDisabled (201), the bounce is
handled by the MinterItem with a refund to the original sender, and the
net loss of the user, the attached 2 TON minus the refund, stays below
0.1 TON provided the modelled per-transaction gas amounts sum below
0.08 TON (the repository gas report measures the whole flow below
0.04 TON). -/
theorem C4_policy_disabled_bounce :
    ∀ adminA collA owner minterA pk price g1 g2 g3 : Nat, ∀ content code : Cell,
      price ≤ 2000000000 →
      g1 + g2 + g3 < 80000000 →
      handleMintItem
          { isMinted := false, price := price, minterAddress := minterA,
            ownerAddress := owner, servicePublicKey := pk,
            contentNftItem := some content }
          (NetAddr.acc owner) 2000000000
          (naclSignDetached (hashMintData content price owner) pk) g1
          MIN_TONS_FOR_STORAGE
        = StepResult.ok
            { isMinted := true, price := price, minterAddress := minterA,
              ownerAddress := owner, servicePublicKey := pk,
              contentNftItem := some content }
            [OutMsg.internalMintRequest minterA
              (2000000000 - g1 - MIN_TONS_FOR_STORAGE) price owner content]
      ∧ handleInternalMintRequest
            { adminAddress := adminA, collectionAddress := collA,
              servicePublicKey := pk, isMintEnabled := false,
              minterItemCode := code } minterA
            (NetAddr.contractAcc ((MinterItem.createFromConfig
              { isMinted := false, price := price, minterAddress := minterA,
                ownerAddress := owner, servicePublicKey := pk,
                contentNftItem := some content } code 0).address))
            (2000000000 - g1 - MIN_TONS_FOR_STORAGE) price owner content g2
            NFT_DEPLOY_AMOUNT
        = StepResult.err ERROR_MINT_DISABLED
      ∧ handleBounce
            { isMinted := true, price := price, minterAddress := minterA,
              ownerAddress := owner, servicePublicKey := pk,
              contentNftItem := some content }
            OP_INTERNAL_MINT_ITEM (2000000000 - g1 - MIN_TONS_FOR_STORAGE - g2) g3
        = StepResult.ok
            { isMinted := false, price := price, minterAddress := minterA,
              ownerAddress := owner, servicePublicKey := pk,
              contentNftItem := some content }
            [OutMsg.refund owner (2000000000 - g1 - MIN_TONS_FOR_STORAGE - g2 - g3)]
      ∧ 2000000000 - (2000000000 - g1 - MIN_TONS_FOR_STORAGE - g2 - g3) < 100000000 := by
  intro adminA collA owner minterA pk price g1 g2 g3 content code hprice hgas
  have hne : ¬ (NetAddr.contractAcc ((MinterItem.createFromConfig
      { isMinted := false, price := price, minterAddress := minterA,
        ownerAddress := owner, servicePublicKey := pk,
        contentNftItem := some content } code 0).address)
      ≠ NetAddr.contractAcc (calculateMinterItemAddress owner minterA pk price
          content code 0)) := fun hx => hx rfl
  refine ⟨?_, ?_, ?_, ?_⟩
  · simp [handleMintItem, contractVerifyMintSignature, naclVerifyDetached,
      naclSignDetached, Nat.not_lt.mpr hprice]
  · simp [handleInternalMintRequest, hne]
  · simp [handleBounce, OP_INTERNAL_MINT_ITEM]
  · simp only [MIN_TONS_FOR_STORAGE]
    omega

/-- C4 witness: the scenario theorem applied at the sample instance with
concrete gas amounts. -/
theorem C4_policy_disabled_bounce_witness :
    1000000000 ≤ 2000000000
    ∧ 3000000 + 2000000 + 1000000 < 80000000
    ∧ (handleMintItem sampleItemState (NetAddr.acc 1) 2000000000 sampleSig 3000000
          MIN_TONS_FOR_STORAGE
        = StepResult.ok sampleItemStateMinted
            [OutMsg.internalMintRequest 9 (2000000000 - 3000000 - MIN_TONS_FOR_STORAGE)
              1000000000 1 sampleContent]
      ∧ handleInternalMintRequest sampleMinterStateDisabled 9
            (NetAddr.contractAcc ((MinterItem.createFromConfig sampleItemState
              sampleItemCode 0).address))
            (2000000000 - 3000000 - MIN_TONS_FOR_STORAGE) 1000000000 1 sampleContent
            2000000 NFT_DEPLOY_AMOUNT
        = StepResult.err ERROR_MINT_DISABLED
      ∧ handleBounce sampleItemStateMinted OP_INTERNAL_MINT_ITEM
            (2000000000 - 3000000 - MIN_TONS_FOR_STORAGE - 2000000) 1000000
        = StepResult.ok sampleItemState
            [OutMsg.refund 1
              (2000000000 - 3000000 - MIN_TONS_FOR_STORAGE - 2000000 - 1000000)]
      ∧ 2000000000 - (2000000000 - 3000000 - MIN_TONS_FOR_STORAGE - 2000000 - 1000000)
          < 100000000) :=
  ⟨by decide, by decide,
   C4_policy_disabled_bounce 3 4 1 9 5 1000000000 3000000 2000000 1000000
     sampleContent sampleItemCode (by decide) (by decide)⟩

/-- C5: admin claim postcondition.  When the admin sends Claim and the
balance (inclusive of the incoming message value) exceeds the minimum
reserve, the excess balance minus reserve is paid to the admin and the
retained balance is exactly the reserve; when the balance does not exceed
the reserve the operation fails with InsufficientBalance (208), a
rejection that commits nothing and sends no value. -/
theorem C5_admin_claim_postcondition :
    (∀ st : MinterConfig, ∀ balance q : Nat, MIN_TONS_FOR_STORAGE < balance →
        handleAdminOp st (NetAddr.acc st.adminAddress) balance (AdminOp.claim q)
          = AdminResult.ok st MIN_TONS_FOR_STORAGE
              [OutMsg.claimPayout st.adminAddress (balance - MIN_TONS_FOR_STORAGE)])
    ∧ (∀ st : MinterConfig, ∀ balance q : Nat, balance ≤ MIN_TONS_FOR_STORAGE →
        handleAdminOp st (NetAddr.acc st.adminAddress) balance (AdminOp.claim q)
          = AdminResult.err ERROR_NOT_ENOUGH_BALANCE) := by
  constructor
  · intro st balance q h
    simp [handleAdminOp, Nat.not_le.mpr h]
  · intro st balance q h
    simp [handleAdminOp, h]

/-- C5 witness: the claim postcondition at the sample minter with a 5 TON
balance, and the insufficient-balance rejection at a 0.01 TON balance. -/
theorem C5_admin_claim_postcondition_witness :
    (MIN_TONS_FOR_STORAGE < 5000000000
      ∧ handleAdminOp sampleMinterState (NetAddr.acc sampleMinterState.adminAddress)
          5000000000 (AdminOp.claim 0)
        = AdminResult.ok sampleMinterState MIN_TONS_FOR_STORAGE
            [OutMsg.claimPayout sampleMinterState.adminAddress
              (5000000000 - MIN_TONS_FOR_STORAGE)])
    ∧ (10000000 ≤ MIN_TONS_FOR_STORAGE
      ∧ handleAdminOp sampleMinterState (NetAddr.acc sampleMinterState.adminAddress)
          10000000 (AdminOp.claim 0)
        = AdminResult.err ERROR_NOT_ENOUGH_BALANCE) :=
  ⟨⟨by decide, C5_admin_claim_postcondition.1 sampleMinterState 5000000000 0 (by decide)⟩,
   ⟨by decide, C5_admin_claim_postcondition.2 sampleMinterState 10000000 0 (by decide)⟩⟩

/-- C6: the mint guards are evaluated in a fixed order and the first
failing guard determines the exit code: an already-minted instance always
reports 204; an unminted instance with a wrong sender reports 202
regardless of the signature or the attached value; the owner sending less
than the price reports 203 regardless of the signature; and with all
earlier guards passing, an invalid signature reports 205. -/
theorem C6_mint_guard_order :
    (∀ st : MinterItemConfig, ∀ sender : NetAddr, ∀ v : Nat, ∀ sig : Ed25519Sig,
      ∀ g r : Nat, st.isMinted = true →
        handleMintItem st sender v sig g r = StepResult.err ERROR_MINTED_ALREADY)
    ∧ (∀ st : MinterItemConfig, ∀ sender : NetAddr, ∀ v : Nat, ∀ sig : Ed25519Sig,
      ∀ g r : Nat, st.isMinted = false → sender ≠ NetAddr.acc st.ownerAddress →
        handleMintItem st sender v sig g r
          = StepResult.err ERROR_NOT_OWNER_TRYING_TO_MINT)
    ∧ (∀ st : MinterItemConfig, ∀ v : Nat, ∀ sig : Ed25519Sig, ∀ g r : Nat,
      st.isMinted = false → v < st.price →
        handleMintItem st (NetAddr.acc st.ownerAddress) v sig g r
          = StepResult.err ERROR_NOT_ENOUGH_FUNDS_TO_MINT)
    ∧ (∀ st : MinterItemConfig, ∀ content : Cell, ∀ v : Nat, ∀ sig : Ed25519Sig,
      ∀ g r : Nat, st.isMinted = false → st.contentNftItem = some content →
      st.price ≤ v →
      contractVerifyMintSignature st.servicePublicKey content st.price
          st.ownerAddress sig = false →
        handleMintItem st (NetAddr.acc st.ownerAddress) v sig g r
          = StepResult.err ERROR_SIGNATURE_INVALID) := by
  refine ⟨?_, ?_, ?_, ?_⟩
  · intro st sender v sig g r h
    simp [handleMintItem, h]
  · intro st sender v sig g r hm hs
    simp [handleMintItem, hm, hs]
  · intro st v sig g r hm hv
    simp [handleMintItem, hm, hv]
  · intro st content v sig g r hm hc hv hsig
    simp [handleMintItem, hm, hc, Nat.not_lt.mpr hv, hsig]

/-- C6 witness: each guard of the order theorem exercised at the sample
instance (minted state, attacker account 2, value 500 below the 1 TON
price, and a signature taken for the wrong owner). -/
theorem C6_mint_guard_order_witness :
    (sampleItemStateMinted.isMinted = true
      ∧ handleMintItem sampleItemStateMinted (NetAddr.acc 1) 2000000000 sampleSig
          1000000 0 = StepResult.err ERROR_MINTED_ALREADY)
    ∧ (sampleItemState.isMinted = false
      ∧ NetAddr.acc 2 ≠ NetAddr.acc sampleItemState.ownerAddress
      ∧ handleMintItem sampleItemState (NetAddr.acc 2) 2000000000 sampleSig 1000000 0
        = StepResult.err ERROR_NOT_OWNER_TRYING_TO_MINT)
    ∧ (500 < sampleItemState.price
      ∧ handleMintItem sampleItemState (NetAddr.acc sampleItemState.ownerAddress) 500
          sampleSig 1000000 0 = StepResult.err ERROR_NOT_ENOUGH_FUNDS_TO_MINT)
    ∧ (contractVerifyMintSignature sampleItemState.servicePublicKey sampleContent
          sampleItemState.price sampleItemState.ownerAddress sampleWrongSig = false
      ∧ handleMintItem sampleItemState (NetAddr.acc sampleItemState.ownerAddress)
          2000000000 sampleWrongSig 1000000 0
        = StepResult.err ERROR_SIGNATURE_INVALID) :=
  ⟨⟨by decide, C6_mint_guard_order.1 sampleItemStateMinted (NetAddr.acc 1) 2000000000
      sampleSig 1000000 0 (by decide)⟩,
   ⟨by decide, by decide, C6_mint_guard_order.2.1 sampleItemState (NetAddr.acc 2)
      2000000000 sampleSig 1000000 0 (by decide) (by decide)⟩,
   ⟨by decide, C6_mint_guard_order.2.2.1 sampleItemState 500 sampleSig 1000000 0
      (by decide) (by decide)⟩,
   ⟨by decide, C6_mint_guard_order.2.2.2 sampleItemState sampleContent 2000000000
      sampleWrongSig 1000000 0 (by decide) (by decide) (by decide) (by decide)⟩⟩

/-- C7: value conservation along the successful full mint flow.  With
attached value V, valid signature and owner sender, the MinterItem
forwards V minus its gas minus its retained reserve; the enabled Minter
accepts the request from the genuine MinterItem address and forwards that
amount minus its own gas and reserve to the collection; the delivered
value equals V minus both gas amounts minus both reserves, is positive,
and is strictly below V. -/
theorem C7_value_conservation_full_flow :
    ∀ adminA collA owner minterA pk price V g1 r1 g2 r2 : Nat, ∀ content code : Cell,
      price ≤ V →
      g1 + r1 + g2 + r2 < V →
      0 < r1 →
      handleMintItem
          { isMinted := false, price := price, minterAddress := minterA,
            ownerAddress := owner, servicePublicKey := pk,
            contentNftItem := some content }
          (NetAddr.acc owner) V
          (naclSignDetached (hashMintData content price owner) pk) g1 r1
        = StepResult.ok
            { isMinted := true, price := price, minterAddress := minterA,
              ownerAddress := owner, servicePublicKey := pk,
              contentNftItem := some content }
            [OutMsg.internalMintRequest minterA (V - g1 - r1) price owner content]
      ∧ handleInternalMintRequest
            { adminAddress := adminA, collectionAddress := collA,
              servicePublicKey := pk, isMintEnabled := true,
              minterItemCode := code } minterA
            (NetAddr.contractAcc ((MinterItem.createFromConfig
              { isMinted := false, price := price, minterAddress := minterA,
                ownerAddress := owner, servicePublicKey := pk,
                contentNftItem := some content } code 0).address))
            (V - g1 - r1) price owner content g2 r2
        = StepResult.ok
            { adminAddress := adminA, collectionAddress := collA,
              servicePublicKey := pk, isMintEnabled := true,
              minterItemCode := code }
            [OutMsg.issueCommand collA (V - g1 - r1 - g2 - r2) owner content]
      ∧ V - g1 - r1 - g2 - r2 = V - (g1 + g2) - (r1 + r2)
      ∧ 0 < V - g1 - r1 - g2 - r2
      ∧ V - g1 - r1 - g2 - r2 < V := by
  intro adminA collA owner minterA pk price V g1 r1 g2 r2 content code hprice hsum hr1
  have hne : ¬ (NetAddr.contractAcc ((MinterItem.createFromConfig
      { isMinted := false, price := price, minterAddress := minterA,
        ownerAddress := owner, servicePublicKey := pk,
        contentNftItem := some content } code 0).address)
      ≠ NetAddr.contractAcc (calculateMinterItemAddress owner minterA pk price
          content code 0)) := fun hx => hx rfl
  refine ⟨?_, ?_, by omega, by omega, by omega⟩
  · simp [handleMintItem, contractVerifyMintSignature, naclVerifyDetached,
      naclSignDetached, Nat.not_lt.mpr hprice]
  · simp [handleInternalMintRequest, hne]

/-- C7 witness: the conservation theorem at the sample instance, with
gas 0.003 and 0.002 TON and the reserves MIN_TONS_FOR_STORAGE and
NFT_DEPLOY_AMOUNT at the two hops. -/
theorem C7_value_conservation_full_flow_witness :
    1000000000 ≤ 2000000000
    ∧ 3000000 + MIN_TONS_FOR_STORAGE + 2000000 + NFT_DEPLOY_AMOUNT < 2000000000
    ∧ 0 < MIN_TONS_FOR_STORAGE
    ∧ (handleMintItem sampleItemState (NetAddr.acc 1) 2000000000 sampleSig 3000000
          MIN_TONS_FOR_STORAGE
        = StepResult.ok sampleItemStateMinted
            [OutMsg.internalMintRequest 9 (2000000000 - 3000000 - MIN_TONS_FOR_STORAGE)
              1000000000 1 sampleContent]
      ∧ handleInternalMintRequest sampleMinterState 9
            (NetAddr.contractAcc ((MinterItem.createFromConfig sampleItemState
              sampleItemCode 0).address))
            (2000000000 - 3000000 - MIN_TONS_FOR_STORAGE) 1000000000 1 sampleContent
            2000000 NFT_DEPLOY_AMOUNT
        = StepResult.ok sampleMinterState
            [OutMsg.issueCommand 4
              (2000000000 - 3000000 - MIN_TONS_FOR_STORAGE - 2000000 - NFT_DEPLOY_AMOUNT)
              1 sampleContent]
      ∧ 2000000000 - 3000000 - MIN_TONS_FOR_STORAGE - 2000000 - NFT_DEPLOY_AMOUNT
          = 2000000000 - (3000000 + 2000000) - (MIN_TONS_FOR_STORAGE + NFT_DEPLOY_AMOUNT)
      ∧ 0 < 2000000000 - 3000000 - MIN_TONS_FOR_STORAGE - 2000000 - NFT_DEPLOY_AMOUNT
      ∧ 2000000000 - 3000000 - MIN_TONS_FOR_STORAGE - 2000000 - NFT_DEPLOY_AMOUNT
          < 2000000000) :=
  ⟨by decide, by decide, by decide,
   C7_value_conservation_full_flow 3 4 1 9 5 1000000000 2000000000 3000000
     MIN_TONS_FOR_STORAGE 2000000 NFT_DEPLOY_AMOUNT sampleContent sampleItemCode
     (by decide) (by decide) (by decide)⟩

/-- C8: every admin operation of the Minter (Claim, ToggleMint,
TransferCollectionOwnership) sent by any account other than the admin is
rejected with NotAdmin (207); a rejection commits no storage change and
produces no outgoing message. -/
theorem C8_admin_only_gating :
    ∀ st : MinterConfig, ∀ sender : NetAddr, ∀ balance : Nat, ∀ op : AdminOp,
      sender ≠ NetAddr.acc st.adminAddress →
      handleAdminOp st sender balance op = AdminResult.err ERROR_NOT_ADMIN := by
  intro st sender balance op h
  simp [handleAdminOp, h]

/-- C8 witness: the gating theorem applied for all three admin operations
sent by the non-admin account 2. -/
theorem C8_admin_only_gating_witness :
    NetAddr.acc 2 ≠ NetAddr.acc sampleMinterState.adminAddress
    ∧ handleAdminOp sampleMinterState (NetAddr.acc 2) 5000000000 (AdminOp.claim 0)
      = AdminResult.err ERROR_NOT_ADMIN
    ∧ handleAdminOp sampleMinterState (NetAddr.acc 2) 5000000000
        (AdminOp.toggleMint 0 false) = AdminResult.err ERROR_NOT_ADMIN
    ∧ handleAdminOp sampleMinterState (NetAddr.acc 2) 5000000000
        (AdminOp.transferCollectionOwnership 0 8) = AdminResult.err ERROR_NOT_ADMIN :=
  ⟨by decide,
   C8_admin_only_gating sampleMinterState (NetAddr.acc 2) 5000000000 (AdminOp.claim 0)
     (by decide),
   C8_admin_only_gating sampleMinterState (NetAddr.acc 2) 5000000000
     (AdminOp.toggleMint 0 false) (by decide),
   C8_admin_only_gating sampleMinterState (NetAddr.acc 2) 5000000000
     (AdminOp.transferCollectionOwnership 0 8) (by decide)⟩

/-- C9: the parsePrice unit switch on decimal-digit price strings.  A
defined non-empty numeral below 1000 is read as whole TON and scaled by
ten to the ninth; a numeral of 1000 or more is returned directly as
nanoTON; an undefined or empty price string yields the default price; in
particular the string 999 parses to 999000000000 while the string 1000
parses to 1000. -/
theorem C9_parse_price_unit_switch :
    (∀ s : String, ∀ d : Nat, isDigitString s = true → parseDecimalNat s < 1000 →
        parsePrice (some s) d = parseDecimalNat s * 1000000000)
    ∧ (∀ s : String, ∀ d : Nat, isDigitString s = true → 1000 ≤ parseDecimalNat s →
        parsePrice (some s) d = parseDecimalNat s)
    ∧ (∀ d : Nat, parsePrice none d = d)
    ∧ (∀ d : Nat, parsePrice (some "") d = d)
    ∧ (∀ d : Nat, parsePrice (some "999") d = 999000000000)
    ∧ (∀ d : Nat, parsePrice (some "1000") d = 1000) := by
  have hne : ∀ s : String, isDigitString s = true → ¬ s = "" := by
    intro s h he
    subst he
    exact absurd h (by decide)
  refine ⟨?_, ?_, ?_, ?_, ?_, ?_⟩
  · intro s d h1 h2
    simp [parsePrice, hne s h1, h2]
  · intro s d h1 h2
    simp [parsePrice, hne s h1, Nat.not_lt.mpr h2]
  · intro d
    rfl
  · intro d
    rfl
  · intro d
    rfl
  · intro d
    rfl

/-- C9 witness: the unit-switch theorem applied at the strings 999 and
1000 (with example default 7), together with the default cases. -/
theorem C9_parse_price_unit_switch_witness :
    (isDigitString "999" = true ∧ parseDecimalNat "999" < 1000
      ∧ parsePrice (some "999") 7 = parseDecimalNat "999" * 1000000000)
    ∧ (isDigitString "1000" = true ∧ 1000 ≤ parseDecimalNat "1000"
      ∧ parsePrice (some "1000") 7 = parseDecimalNat "1000")
    ∧ parsePrice none 7 = 7
    ∧ parsePrice (some "") 7 = 7 :=
  ⟨⟨by decide, by decide,
     C9_parse_price_unit_switch.1 "999" 7 (by decide) (by decide)⟩,
   ⟨by decide, by decide,
     C9_parse_price_unit_switch.2.1 "1000" 7 (by decide) (by decide)⟩,
   C9_parse_price_unit_switch.2.2.1 7,
   C9_parse_price_unit_switch.2.2.2.1 7⟩

/-- Helper for C10: writing the big-endian base-256 value of a byte list
back to bytes at the same width recovers the list. -/
theorem natToBEBytes_publicKeyToBigInt (xs : List Nat) (h : ∀ b ∈ xs, b < 256) :
    natToBEBytes xs.length (publicKeyToBigInt xs) = xs := by
  induction xs using List.reverseRecOn with
  | nil => rfl
  | append_singleton xs b ih =>
    have hb : b < 256 := h b (by simp)
    have hxs : ∀ x ∈ xs, x < 256 := fun x hx => h x (by simp [hx])
    have h1 : publicKeyToBigInt (xs ++ [b]) = publicKeyToBigInt xs * 256 + b := by
      simp [publicKeyToBigInt, List.foldl_append]
    have h2 : (xs ++ [b]).length = xs.length + 1 := by simp
    rw [h1, h2, natToBEBytes]
    have hdiv : (publicKeyToBigInt xs * 256 + b) / 256 = publicKeyToBigInt xs := by
      omega
    have hmod : (publicKeyToBigInt xs * 256 + b) % 256 = b := by omega
    rw [hdiv, hmod, ih hxs]

/-- C10: the 256-bit integer encoding of a 32-byte public key is lossless:
re-encoding the bigint form back to bytes recovers the original key,
including keys with leading zero bytes, because the hex form is padded to
exactly 64 digits before decoding. -/
theorem C10_public_key_round_trip (pk : List Nat) (hlen : pk.length = 32)
    (hbytes : ∀ b ∈ pk, b < 256) :
    bigIntToPublicKey (publicKeyToBigInt pk) = pk := by
  unfold bigIntToPublicKey
  rw [← hlen]
  exact natToBEBytes_publicKeyToBigInt pk hbytes

/-- C10 witness: the round trip at a sample 32-byte key whose two leading
bytes are zero. -/
theorem C10_public_key_round_trip_witness :
    sampleKeyBytes.length = 32
    ∧ (∀ b ∈ sampleKeyBytes, b < 256)
    ∧ bigIntToPublicKey (publicKeyToBigInt sampleKeyBytes) = sampleKeyBytes :=
  ⟨by decide, by decide,
   C10_public_key_round_trip sampleKeyBytes (by decide) (by decide)⟩
